import Mathlib

/-!
Verification of the repository's pattern-scanning core (org-ai-stats.py).

The Python source is shallowly embedded: pure functions become Lean
functions on `Nat`/`Int`/`Rat`, `String` and `List`; Python dictionaries
become association lists; fallible reads become `Option`.  Two pieces of
behaviour that cannot be embedded - the CPython regular-expression engine
(`re.findall` over the rule catalog) and the CPython parser (`ast.parse`) -
are treated as per-file oracles recorded on the file entry: the analyzer is
verified for every possible value of those oracles.
-/

set_option maxRecDepth 8000

namespace OrgAiStats

/-- Whitespace characters stripped by Python `str.strip` / `str.lstrip`
(the ASCII range; file content is modelled over ASCII whitespace). -/
def isPySpace (c : Char) : Bool :=
  c = ' ' || c = '\t' || c = '\n' || c = '\r' || c = '\x0b' || c = '\x0c'

/-- Python `line.strip()`: remove leading and trailing whitespace. -/
def pyStrip (s : String) : String :=
  String.mk (((s.toList.dropWhile isPySpace).reverse.dropWhile isPySpace).reverse)

/-- Python `line.lstrip()`: remove leading whitespace. -/
def pyLstrip (s : String) : String :=
  String.mk (s.toList.dropWhile isPySpace)

/-- Python `str.lower()` restricted to the ASCII letters (character-wise
`Char.toLower`, which is what `str.lower` does on ASCII extensions). -/
def pyLower (s : String) : String :=
  String.mk (s.toList.map Char.toLower)

/-- Association-list read with a default, modelling `dict.get(k, default)`
and `defaultdict` reads. -/
def dict_get {α : Type} (d : List (String × α)) (k : String) (dflt : α) : α :=
  match d with
  | [] => dflt
  | p :: rest => if p.1 = k then p.2 else dict_get rest k dflt

/-- Key-membership test for the association-list dictionary model. -/
def dict_mem {α : Type} (d : List (String × α)) (k : String) : Bool :=
  d.any (fun p => p.1 = k)

/-- Association-list write, modelling `d[k] = v`: replace in place when the
key exists, otherwise append (Python dicts keep insertion order). -/
def dict_set {α : Type} (d : List (String × α)) (k : String) (v : α) :
    List (String × α) :=
  if dict_mem d k then d.map (fun p => if p.1 = k then (k, v) else p)
  else d ++ [(k, v)]

/-- Counter increment, modelling `d[k] += v` on a `defaultdict(int)`. -/
def dict_add (d : List (String × ℕ)) (k : String) (v : ℕ) :
    List (String × ℕ) :=
  dict_set d k (dict_get d k 0 + v)

/-- Python `d.update(e)`: every key of `e` overwrites the value in `d`. -/
def dict_update (d e : List (String × ℕ)) : List (String × ℕ) :=
  e.foldl (fun acc p => dict_set acc p.1 p.2) d

/-- Sum of the stored counter values, modelling `sum(d.values())`. -/
def dict_values_sum (d : List (String × ℕ)) : ℕ :=
  (d.map (fun p => p.2)).sum

/-- Extension table of `detect_language` (org-ai-stats.py lines 181-200). -/
def ext_to_lang : List (String × String) :=
  [(".py", "python"), (".js", "javascript"), (".ts", "typescript"),
   (".tsx", "typescript"), (".jsx", "javascript"), (".java", "java"),
   (".cpp", "cpp"), (".cc", "cpp"), (".cxx", "cpp"), (".c", "cpp"),
   (".cs", "csharp"), (".go", "go"), (".rs", "rust"), (".php", "php"),
   (".rb", "ruby"), (".swift", "swift"), (".kt", "kotlin"),
   (".scala", "scala")]

/-- Language detection from a file suffix: `ext_to_lang.get(suffix.lower(),
'general')` (org-ai-stats.py lines 179-202).  The caller passes
`file_path.suffix`. -/
def detect_language (suffix : String) : String :=
  dict_get ext_to_lang (pyLower suffix) ("general")

/-- Index of the last dot in a list of characters, if any
(Python `name.rfind` restricted to the dot). -/
def last_dot_index (cs : List Char) : Option ℕ :=
  ((cs.enum.filter (fun p => p.2 = '.')).map (fun p => p.1)).getLast?

/-- Python `pathlib.PurePath.suffix` on a file name: the part of the name
from its last dot, provided that dot is neither the first nor the last
character; otherwise the empty string. -/
def path_suffix (nm : String) : String :=
  let cs := nm.toList
  match last_dot_index cs with
  | none => ("")
  | some i => if 0 < i ∧ i + 1 < cs.length then String.mk (cs.drop i) else ("")

/-- Density-to-lines mapping of `analyze_file_patterns`
(org-ai-stats.py lines 306-314).  Python real division is embedded as
exact `Rat` division; `int(...)` on the (non-negative) product is the
floor. -/
def ai_pattern_lines (total_lines pattern_score : ℕ) : ℕ :=
  if pattern_score = 0 then 0
  else if pattern_score < 5 then min pattern_score (total_lines / 10)
  else
    Int.toNat
      ⌊(total_lines : ℚ) *
        min ((pattern_score : ℚ) / ((total_lines : ℚ) / 100)) 0.8⌋

/-- Counters produced by `analyze_complexity_fast`. -/
structure ComplexityCounts where
  long_lines : ℕ
  deep_nesting : ℕ
  excessive_comments : ℕ

/-- Body of the per-line loop of `analyze_complexity_fast`
(org-ai-stats.py lines 323-339). -/
def complexity_step (acc : ComplexityCounts) (line : String) : ComplexityCounts :=
  let stripped := pyStrip line
  if stripped = ("") then acc
  else
    let a1 := if 120 < line.length then acc.long_lines + 1 else acc.long_lines
    let indent := line.length - (pyLstrip line).length
    let a2 := if 16 < indent then acc.deep_nesting + 1 else acc.deep_nesting
    let a3 :=
      if (stripped.startsWith ("#")) || (stripped.startsWith ("//")) then
        acc.excessive_comments + 1
      else acc.excessive_comments
    ⟨a1, a2, a3⟩

/-- Fast line-level heuristics (org-ai-stats.py lines 319-341). -/
def analyze_complexity_fast (lines : List String) : ComplexityCounts :=
  lines.foldl complexity_step ⟨0, 0, 0⟩

/-- Dictionary view of the complexity counters: the Python `defaultdict`
only holds the keys that were actually incremented. -/
def complexity_entries (c : ComplexityCounts) : List (String × ℕ) :=
  (([(("long_lines"), c.long_lines), (("deep_nesting"), c.deep_nesting),
     (("excessive_comments"), c.excessive_comments)] : List (String × ℕ))).filter
    (fun p => p.2 != 0)

/-- Shape of a parsed Python syntax tree as consumed by
`analyze_python_ast` (org-ai-stats.py lines 204-247): the node kinds the
function inspects, each carrying the fields it reads, and a catch-all
constructor for every other node kind. -/
inductive PyNode where
  | functionDef : String → Option String → List PyNode → PyNode
  | classDef : Option String → List PyNode → PyNode
  | tryStmt : ℕ → List PyNode → PyNode
  | nameExpr : String → PyNode
  | lambdaExpr : List PyNode → PyNode
  | otherNode : List PyNode → PyNode

/-- Child nodes of a syntax-tree node. -/
def PyNode.children : PyNode → List PyNode
  | .functionDef _ _ c => c
  | .classDef _ c => c
  | .tryStmt _ c => c
  | .nameExpr _ => []
  | .lambdaExpr c => c
  | .otherNode c => c

mutual

/-- The node itself followed by all of its descendants, modelling
`ast.walk(node)` (order is irrelevant to the counters below). -/
def PyNode.walk : PyNode → List PyNode
  | .functionDef nm d c => .functionDef nm d c :: walk_all c
  | .classDef d c => .classDef d c :: walk_all c
  | .tryStmt h c => .tryStmt h c :: walk_all c
  | .nameExpr i => [.nameExpr i]
  | .lambdaExpr c => .lambdaExpr c :: walk_all c
  | .otherNode c => .otherNode c :: walk_all c

/-- Walk of every node of a list of trees. -/
def walk_all : List PyNode → List PyNode
  | [] => []
  | n :: rest => PyNode.walk n ++ walk_all rest

end

/-- Generic verb prefixes tested against function names
(org-ai-stats.py line 220). -/
def generic_prefixes : List String :=
  [("process"), ("handle"), ("get"), ("set"), ("create"), ("update"),
   ("delete"), ("manage")]

/-- Generic identifier vocabulary tested against `ast.Name` ids
(org-ai-stats.py line 230). -/
def generic_names : List String :=
  [("data"), ("result"), ("response"), ("item"), ("element"), ("value"),
   ("temp"), ("tmp")]

/-- Test whether a node is a `FunctionDef`. -/
def PyNode.isFunctionDef : PyNode → Bool
  | .functionDef _ _ _ => true
  | _ => false

/-- Docstring check of `analyze_python_ast` lines 213-216: a function or
class whose docstring is present (truthy) and longer than 300 characters. -/
def isVerboseDocstring : PyNode → Bool
  | .functionDef _ (some d) _ => decide (300 < d.length)
  | .classDef (some d) _ => decide (300 < d.length)
  | _ => false

/-- Generic-name check of lines 219-222: function name starting (after
lowering) with one of the generic verb prefixes. -/
def isGenericFunctionName : PyNode → Bool
  | .functionDef nm _ _ => generic_prefixes.any (fun p => (pyLower nm).startsWith p)
  | _ => false

/-- Exception-handling check of lines 225-226: a `Try` with more than two
handlers. -/
def isExcessiveTry : PyNode → Bool
  | .tryStmt h _ => decide (2 < h)
  | _ => false

/-- Generic-variable check of lines 229-232: a `Name` drawn from the fixed
vocabulary. -/
def isGenericVariableName : PyNode → Bool
  | .nameExpr i => generic_names.contains i
  | _ => false

/-- Lambda check of lines 235-236. -/
def isLambdaNode : PyNode → Bool
  | .lambdaExpr _ => true
  | _ => false

/-- Nested-function check of lines 239-242: a `FunctionDef` with more than
two `FunctionDef` strict descendants (`ast.walk(node)` minus the node
itself). -/
def hasNestedFunctions : PyNode → Bool
  | .functionDef _ _ c =>
      decide (2 < ((walk_all c).filter PyNode.isFunctionDef).length)
  | _ => false

/-- Signal counters of `analyze_python_ast` over a successfully parsed
tree; the `defaultdict` holds exactly the keys that were incremented. -/
def analyze_python_ast_tree (tree : PyNode) : List (String × ℕ) :=
  let ns := tree.walk
  (([(("verbose_docstrings"), (ns.filter isVerboseDocstring).length),
     (("generic_function_names"), (ns.filter isGenericFunctionName).length),
     (("excessive_exception_handling"), (ns.filter isExcessiveTry).length),
     (("generic_variable_names"), (ns.filter isGenericVariableName).length),
     (("lambda_overuse"), (ns.filter isLambdaNode).length),
     (("nested_functions"), (ns.filter hasNestedFunctions).length)] :
    List (String × ℕ))).filter (fun p => p.2 != 0)

/-- Syntax-heuristic analysis (org-ai-stats.py lines 204-247).  The call
`ast.parse(code)` is the per-file oracle: `none` models a `SyntaxError`,
which the function catches, returning the untouched (empty) counter set. -/
def analyze_python_ast (parsed : Option PyNode) : List (String × ℕ) :=
  match parsed with
  | none => []
  | some tree => analyze_python_ast_tree tree

/-- Splitting accumulator: current (reversed) chunk plus remaining input. -/
def split_lines_aux : List Char → List Char → List String
  | [], acc => [String.mk acc.reverse]
  | c :: rest, acc =>
      if c = '\n' then String.mk acc.reverse :: split_lines_aux rest []
      else split_lines_aux rest (c :: acc)

/-- Python `code.split('\n')`: split on every newline, keeping empty
chunks, so the empty string yields `[""]` and a trailing newline yields a
final empty chunk. -/
def py_split_lines (s : String) : List String :=
  split_lines_aux s.toList []

/-- Model of one filesystem entry seen by the scan.  `content = none`
models an `OSError` raised by `stat`/`open`/`read` (caught on
org-ai-stats.py lines 253-262); `regexMatches` is the oracle for the
`re.findall` counts of the applicable catalog rules in iteration order
(lines 276-289); `pyParse` is the oracle for `ast.parse` (line 209). -/
structure FileEntry where
  parts : List String
  size : ℕ
  content : Option String
  regexMatches : List (String × ℕ)
  pyParse : Option PyNode

/-- Final path component, `pathlib.PurePath.name`. -/
def FileEntry.fileName (e : FileEntry) : String :=
  (e.parts.getLast?).getD ("")

/-- Hard size cap of `analyze_file_patterns` (line 256): 10 MiB. -/
def max_file_size : ℕ := 10 * 1024 * 1024

/-- Merge of the syntax-tree counters into the text counters
(org-ai-stats.py lines 294-301): only for `python` files under the
10000-line ceiling, and by `+=` per key. -/
def patterns_with_ast (textPats : List (String × ℕ)) (language : String)
    (total_lines : ℕ) (parsed : Option PyNode) : List (String × ℕ) :=
  if language = ("python") ∧ total_lines < 10000 then
    (analyze_python_ast parsed).foldl (fun d p => dict_add d p.1 p.2) textPats
  else textPats

/-- Per-file analysis (org-ai-stats.py lines 249-317), returning
`(total_lines, ai_pattern_lines, all_patterns)`; the wall-clock
`analysis_time` component is dropped.  Oversized, unreadable and
whitespace-only files return `(0, 0, {})`; files under five lines return
`(total_lines, 0, {})`; regex counts are added only when positive
(line 286-287), the fast complexity counters then overwrite their keys via
`dict.update` (line 292), and the syntax-tree counters are added per key
when eligible. -/
def analyze_file_patterns (e : FileEntry) : ℕ × ℕ × List (String × ℕ) :=
  if max_file_size < e.size then (0, 0, [])
  else
    match e.content with
    | none => (0, 0, [])
    | some code =>
      if pyStrip code = ("") then (0, 0, [])
      else
        let lines := py_split_lines code
        let total_lines := lines.length
        if total_lines < 5 then (total_lines, 0, [])
        else
          let language := detect_language (path_suffix e.fileName)
          let regexPats :=
            e.regexMatches.foldl
              (fun d p => if 0 < p.2 then dict_add d p.1 p.2 else d) []
          let textPats :=
            dict_update regexPats (complexity_entries (analyze_complexity_fast lines))
          let allPats := patterns_with_ast textPats language total_lines e.pyParse
          let score := dict_values_sum allPats
          (total_lines, ai_pattern_lines total_lines score, allPats)

/-- Mutable summary dictionary `results['analysis_summary']`; the two
wall-clock fields (`analysis_time`, `files_per_second`) are dropped. -/
structure AnalysisSummary where
  total_files : ℕ
  analyzed_files : ℕ
  total_lines : ℕ
  ai_pattern_lines : ℕ
  ai_percentage : ℚ

/-- One bucket of `results['language_breakdown']`. -/
structure LangStats where
  total_lines : ℕ
  ai_pattern_lines : ℕ
  files : ℕ

/-- One element of `results['file_analysis']` (org-ai-stats.py lines
444-452).  `path` keeps the relative-path components (`str(relative_path)`
merely renders them); the report-only `top_patterns` display field is
dropped. -/
structure FileResult where
  path : List String
  language : String
  total_lines : ℕ
  ai_pattern_lines : ℕ
  ai_percentage : ℚ
  patterns_found : ℕ

/-- The scan-scoped result accumulator (`self.results` minus the
report-only `repository_info`). -/
structure Results where
  summary : AnalysisSummary
  pattern_details : List (String × ℕ)
  language_breakdown : List (String × LangStats)
  file_analysis : List FileResult
  top_ai_files : List FileResult

/-- Accumulation of one per-file result (org-ai-stats.py lines 425-454):
unconditional `analyzed_files += 1`, line/pattern totals, per-language
bucket, global pattern counters, and the appended `FileResult` with its
percentage (zero when the file has zero lines). -/
def process_file_result (r : Results) (e : FileEntry)
    (total_lines ai_lines : ℕ) (patterns : List (String × ℕ)) : Results :=
  let s := r.summary
  let s2 : AnalysisSummary :=
    ⟨s.total_files, s.analyzed_files + 1, s.total_lines + total_lines,
     s.ai_pattern_lines + ai_lines, s.ai_percentage⟩
  let language := detect_language (path_suffix e.fileName)
  let cur := dict_get r.language_breakdown language ⟨0, 0, 0⟩
  let lb2 :=
    dict_set r.language_breakdown language
      ⟨cur.total_lines + total_lines, cur.ai_pattern_lines + ai_lines,
       cur.files + 1⟩
  let pd2 := patterns.foldl (fun d p => dict_add d p.1 p.2) r.pattern_details
  let pct : ℚ :=
    if 0 < total_lines then (ai_lines : ℚ) / (total_lines : ℚ) * 100 else 0
  let fr : FileResult :=
    ⟨e.parts, language, total_lines, ai_lines, pct, patterns.length⟩
  ⟨s2, pd2, lb2, r.file_analysis ++ [fr], r.top_ai_files⟩

/-- One step of the sequential loop: analyze, then accumulate. -/
def analyze_step (r : Results) (e : FileEntry) : Results :=
  let t := analyze_file_patterns e
  process_file_result r e t.1 t.2.1 t.2.2

/-- Sequential strategy `_analyze_sequential` (org-ai-stats.py lines
416-423): one interleaved analyze-and-accumulate pass in list order. -/
def analyze_sequential (r : Results) (files : List FileEntry) : Results :=
  files.foldl analyze_step r

/-- Concurrent strategy `_analyze_parallel` (org-ai-stats.py lines
399-414): the futures dictionary is iterated in submission order, so the
deterministic per-file results are collected first and then accumulated
in that same order by the single orchestrator thread.  The per-file
60-second timeout is a wall-clock effect outside the embedding. -/
def analyze_parallel (r : Results) (files : List FileEntry) : Results :=
  (files.map (fun e => (e, analyze_file_patterns e))).foldl
    (fun acc p => process_file_result acc p.1 p.2.1 p.2.2.1 p.2.2.2) r

/-- Descending comparison on `ai_percentage` used by the top-N selection. -/
def pct_ge (a b : FileResult) : Prop :=
  b.ai_percentage ≤ a.ai_percentage

instance : DecidableRel pct_ge :=
  fun a b => inferInstanceAs (Decidable (b.ai_percentage ≤ a.ai_percentage))

/-- CPython `sorted(key=..., reverse=True)` is the stable descending sort
on the key; `List.insertionSort pct_ge` computes exactly that sequence
(sorted non-increasingly, equal keys kept in input order). -/
def sort_by_ai_percentage (l : List FileResult) : List FileResult :=
  List.insertionSort pct_ge l

/-- Finalization `_finalize_results` (org-ai-stats.py lines 465-481)
without the two wall-clock fields: the global percentage when any line was
counted, and the top twenty files by `ai_percentage`. -/
def finalize_results (r : Results) : Results :=
  let s := r.summary
  let s2 : AnalysisSummary :=
    if 0 < s.total_lines then
      ⟨s.total_files, s.analyzed_files, s.total_lines, s.ai_pattern_lines,
       (s.ai_pattern_lines : ℚ) / (s.total_lines : ℚ) * 100⟩
    else s
  ⟨s2, r.pattern_details, r.language_breakdown, r.file_analysis,
   (sort_by_ai_percentage r.file_analysis).take 20⟩

/-- Recognized source extensions (org-ai-stats.py lines 362-365). -/
def code_extensions : List String :=
  [(".py"), (".js"), (".ts"), (".jsx"), (".tsx"), (".java"), (".cpp"),
   (".cc"), (".cxx"), (".c"), (".cs"), (".go"), (".rs"), (".php"),
   (".rb"), (".swift"), (".kt"), (".scala"), (".m"), (".h")]

/-- Excluded directory names (org-ai-stats.py lines 367-368). -/
def skip_dirs : List String :=
  [(".git"), ("node_modules"), ("__pycache__"), (".venv"), ("venv"),
   ("target"), ("build"), ("dist"), (".next"), ("coverage"), ("vendor")]

/-- Candidate filter of the discovery loop (org-ai-stats.py lines
376-377): recognized extension and no path component equal to an excluded
directory name. -/
def is_candidate (e : FileEntry) : Bool :=
  decide (pyLower (path_suffix e.fileName) ∈ code_extensions) &&
  !(decide (∃ d ∈ skip_dirs, d ∈ e.parts))

/-- The discovered candidate list (`files_to_analyze`), in discovery
order. -/
def files_to_analyze (entries : List FileEntry) : List FileEntry :=
  entries.filter is_candidate

/-- Whole-repository scan `analyze_repository` (org-ai-stats.py lines
343-397): `entries` is the `rglob` enumeration of the regular files under
the root in discovery order; `total_files` counts every one of them; the
candidates are analyzed concurrently when requested and more than twenty,
else sequentially; with no candidates the function returns before
finalization. -/
def analyze_repository (entries : List FileEntry) (use_parallel : Bool) :
    Results :=
  let init : Results := ⟨⟨entries.length, 0, 0, 0, 0⟩, [], [], [], []⟩
  let files := files_to_analyze entries
  if files.isEmpty then init
  else if use_parallel && decide (20 < files.length) then
    finalize_results (analyze_parallel init files)
  else finalize_results (analyze_sequential init files)

/-! Helper lemmas shared by the claim theorems. -/

/-- The estimate never exceeds the file's line count, for every score. -/
theorem ai_pattern_lines_le (t s : ℕ) : ai_pattern_lines t s ≤ t := by
  unfold ai_pattern_lines
  split
  · exact Nat.zero_le t
  · split
    · exact le_trans (Nat.min_le_right _ _) (Nat.div_le_self t 10)
    · rw [Int.toNat_le]
      calc ⌊(t : ℚ) * min ((s : ℚ) / ((t : ℚ) / 100)) 0.8⌋
          ≤ ⌊((t : ℕ) : ℚ)⌋ := by
            apply Int.floor_le_floor
            apply mul_le_of_le_one_right
            · positivity
            · exact le_trans (min_le_right _ _) (by norm_num)
        _ = (t : ℤ) := Int.floor_natCast t

/-- C1: for every analyzed file with at least the minimum line count, the
density-to-lines mapping is exact: score zero gives zero lines; a score
below five gives `min(score, totalLines div 10)`; a score of at least five
gives `floor(totalLines * min(score / (totalLines / 100), 0.8))`; in
particular 200 lines with score 3 give 3 and 1000 lines with score 50
give 800. -/
theorem density_mapping_exact (t s : ℕ) (ht : 5 ≤ t) :
    (s = 0 → ai_pattern_lines t s = 0) ∧
    (0 < s → s < 5 → ai_pattern_lines t s = min s (t / 10)) ∧
    (5 ≤ s →
      (ai_pattern_lines t s : ℤ) =
        ⌊(t : ℚ) * min ((s : ℚ) / ((t : ℚ) / 100)) 0.8⌋) ∧
    ai_pattern_lines 200 3 = 3 ∧ ai_pattern_lines 1000 50 = 800 := by
  refine ⟨?_, ?_, ?_, ?_, ?_⟩
  · intro h
    simp [ai_pattern_lines, h]
  · intro h1 h2
    have h0 : ¬(s = 0) := by omega
    simp [ai_pattern_lines, h0, h2]
  · intro h5
    have h0 : ¬(s = 0) := by omega
    have h2 : ¬(s < 5) := by omega
    have hq : (0 : ℚ) ≤ (t : ℚ) * min ((s : ℚ) / ((t : ℚ) / 100)) 0.8 := by
      apply mul_nonneg
      · positivity
      · exact le_min (by positivity) (by norm_num)
    simp only [ai_pattern_lines, h0, h2, if_false]
    exact Int.toNat_of_nonneg (Int.le_floor.mpr (by exact_mod_cast hq))
  · decide
  · norm_num [ai_pattern_lines]
    decide

/-- Witness for `density_mapping_exact` at the spec's own two examples. -/
theorem density_mapping_exact_witness :
    5 ≤ 200 ∧ ai_pattern_lines 200 3 = 3 ∧ ai_pattern_lines 1000 50 = 800 :=
  ⟨by decide, (density_mapping_exact 200 3 (by decide)).2.2.2⟩

/-- C2: for every file entry - every content, every size, every value of
the regex and parse oracles - the analyzer's estimated pattern lines lie
between zero and the returned total line count. -/
theorem estimated_pattern_lines_bounds (e : FileEntry) :
    0 ≤ (analyze_file_patterns e).2.1 ∧
    (analyze_file_patterns e).2.1 ≤ (analyze_file_patterns e).1 := by
  refine ⟨Nat.zero_le _, ?_⟩
  unfold analyze_file_patterns
  split
  · simp
  · split
    · simp
    · split
      · simp
      · dsimp only
        split
        · simp
        · exact ai_pattern_lines_le _ _

/-- The concurrent strategy is the sequential fold: results are collected
from the futures in submission order and merged one at a time. -/
theorem parallel_eq_sequential (r : Results) (files : List FileEntry) :
    analyze_parallel r files = analyze_sequential r files := by
  unfold analyze_parallel analyze_sequential
  rw [List.foldl_map]
  rfl

/-- C3: for every input tree the concurrent and the sequential execution
strategies of `analyze_repository` produce the same `Results` value -
identical summary, per-language breakdown, pattern totals and top-N
list. -/
theorem parallel_sequential_agree (entries : List FileEntry) :
    analyze_repository entries true = analyze_repository entries false := by
  unfold analyze_repository
  simp only [parallel_eq_sequential, Bool.true_and, Bool.false_and,
    Bool.false_eq_true, if_false, ite_self]

/-- C8: the syntax-tree analysis is gated on the one parsed language and
the 10000-line ceiling, and a parse failure (`ast.parse` raising
`SyntaxError`, modelled by the `none` oracle) yields the empty signal set,
so the file's pattern dictionary is exactly the text-pattern one. -/
theorem ast_gating_and_parse_failure (textPats : List (String × ℕ))
    (language : String) (total_lines : ℕ) (parsed : Option PyNode) :
    analyze_python_ast none = [] ∧
    patterns_with_ast textPats language total_lines none = textPats ∧
    (¬(language = ("python") ∧ total_lines < 10000) →
      patterns_with_ast textPats language total_lines parsed = textPats) := by
  refine ⟨rfl, ?_, ?_⟩
  · unfold patterns_with_ast
    split
    · rfl
    · rfl
  · intro h
    unfold patterns_with_ast
    exact if_neg h

/-- Witness for `ast_gating_and_parse_failure`: a non-python file keeps
its text patterns untouched even with a parsed tree available. -/
theorem ast_gating_and_parse_failure_witness :
    ¬((("java") : String) = ("python") ∧ 50 < 10000) ∧
    patterns_with_ast [] ("java") 50 (some (PyNode.lambdaExpr [])) = [] :=
  ⟨by decide,
   (ast_gating_and_parse_failure [] ("java") 50
     (some (PyNode.lambdaExpr []))).2.2 (by decide)⟩

/-- Valid code points survive the `Char.ofNat` round trip. -/
theorem char_toNat_ofNat_valid (n : ℕ) (h : n.isValidChar) :
    (Char.ofNat n).toNat = n := by
  simp only [Char.ofNat, h, dif_pos, Char.ofNatAux, Char.toNat, UInt32.toNat]
  rfl

/-- Characters outside the ASCII uppercase range are fixed by
`Char.toLower`. -/
theorem char_toLower_fix (d : Char) (h : ¬(d.toNat ≥ 65 ∧ d.toNat ≤ 90)) :
    Char.toLower d = d := by
  unfold Char.toLower
  exact if_neg h

/-- Lowercasing a character twice is lowercasing it once. -/
theorem char_toLower_idem (c : Char) :
    (Char.toLower c).toLower = Char.toLower c := by
  by_cases h : c.toNat ≥ 65 ∧ c.toNat ≤ 90
  · have hv : (c.toNat + 32).isValidChar := Or.inl (by omega)
    have ht : (Char.ofNat (c.toNat + 32)).toNat = c.toNat + 32 :=
      char_toNat_ofNat_valid _ hv
    have hc : Char.toLower c = Char.ofNat (c.toNat + 32) := by
      unfold Char.toLower
      exact if_pos h
    rw [hc, char_toLower_fix]
    omega
  · rw [char_toLower_fix c h, char_toLower_fix c h]

/-- Lowercasing a string twice is lowercasing it once. -/
theorem pyLower_idem (s : String) : pyLower (pyLower s) = pyLower s := by
  unfold pyLower
  have hl : (String.mk (s.toList.map Char.toLower)).toList =
      s.toList.map Char.toLower := rfl
  rw [hl, List.map_map]
  congr 1
  exact List.map_congr_left (fun c _ => char_toLower_idem c)

/-- A key absent from the dictionary reads back as the default. -/
theorem dict_get_not_mem {α : Type} (d : List (String × α)) (k : String)
    (v : α) (h : k ∉ d.map (fun p => p.1)) : dict_get d k v = v := by
  induction d with
  | nil => rfl
  | cons p rest ih =>
    simp only [List.map_cons, List.mem_cons, not_or] at h
    unfold dict_get
    rw [if_neg (fun hh => h.1 hh.symm)]
    exact ih h.2

/-- C9: the language classifier is a total function of the extension
alone, is insensitive to the case of the extension (lowering the input
does not change the answer), and returns `general` for every unrecognized
extension and for the missing extension. -/
theorem detect_language_spec (s : String) :
    detect_language (pyLower s) = detect_language s ∧
    (pyLower s ∉ ext_to_lang.map (fun p => p.1) →
      detect_language s = ("general")) ∧
    detect_language ("") = ("general") := by
  refine ⟨?_, ?_, by decide⟩
  · unfold detect_language
    rw [pyLower_idem]
  · intro h
    unfold detect_language
    exact dict_get_not_mem _ _ _ h

/-- Witness for `detect_language_spec`: an unrecognized extension maps to
`general`. -/
theorem detect_language_spec_witness :
    (pyLower (".xyz") ∉ ext_to_lang.map (fun p => p.1)) ∧
    detect_language (".xyz") = ("general") :=
  ⟨by decide, (detect_language_spec (".xyz")).2.1 (by decide)⟩

/-- Stated from the claim: a non-blank line longer than 120 characters. -/
def spec_long_line (l : String) : Bool :=
  decide (pyStrip l ≠ ("")) && decide (120 < l.length)

/-- Stated from the claim: a non-blank line whose leading-whitespace run
is longer than 16 characters. -/
def spec_deep_nesting (l : String) : Bool :=
  decide (pyStrip l ≠ ("")) &&
  decide (16 < (l.toList.takeWhile isPySpace).length)

/-- Stated from the claim: a non-blank line whose stripped text starts
with a line-comment marker. -/
def spec_comment_line (l : String) : Bool :=
  decide (pyStrip l ≠ ("")) &&
  ((pyStrip l).startsWith ("#") || (pyStrip l).startsWith ("//"))

/-- The code's `indent` (length minus length after `lstrip`) is the length
of the leading whitespace run. -/
theorem indent_eq_leading_whitespace (l : String) :
    l.length - (pyLstrip l).length = (l.toList.takeWhile isPySpace).length := by
  have hsplit : (l.toList.takeWhile isPySpace).length +
      (l.toList.dropWhile isPySpace).length = l.toList.length := by
    rw [← List.length_append, List.takeWhile_append_dropWhile]
  have hlstrip : (pyLstrip l).length = (l.toList.dropWhile isPySpace).length := rfl
  have hlen : l.length = l.toList.length := rfl
  omega

/-- The loop of `analyze_complexity_fast` from any starting accumulator
counts exactly the lines satisfying the three claim-side predicates. -/
theorem complexity_foldl_spec (lines : List String) (acc : ComplexityCounts) :
    lines.foldl complexity_step acc =
      ⟨acc.long_lines + lines.countP spec_long_line,
       acc.deep_nesting + lines.countP spec_deep_nesting,
       acc.excessive_comments + lines.countP spec_comment_line⟩ := by
  induction lines generalizing acc with
  | nil => simp
  | cons l rest ih =>
    rw [List.foldl_cons, ih]
    simp only [List.countP_cons, ComplexityCounts.mk.injEq]
    unfold complexity_step spec_long_line spec_deep_nesting spec_comment_line
    by_cases hb : pyStrip l = ("")
    · simp [hb]
    · simp only [hb, if_false, decide_not, indent_eq_leading_whitespace]
      simp [hb]
      refine ⟨?_, ?_, ?_⟩ <;> (split_ifs <;> omega)

/-- C10: the fast line-level heuristic counters are exactly: a blank
(whitespace-only) line increments nothing; a non-blank line counts toward
`long_lines` iff it is longer than 120 characters, toward `deep_nesting`
iff its leading whitespace is longer than 16 characters, and toward
`excessive_comments` iff its stripped text starts with `#` or `//`. -/
theorem complexity_fast_counters (lines : List String) :
    (∀ acc line, pyStrip line = ("") → complexity_step acc line = acc) ∧
    (analyze_complexity_fast lines).long_lines = lines.countP spec_long_line ∧
    (analyze_complexity_fast lines).deep_nesting =
      lines.countP spec_deep_nesting ∧
    (analyze_complexity_fast lines).excessive_comments =
      lines.countP spec_comment_line := by
  refine ⟨?_, ?_, ?_, ?_⟩
  · intro acc line h
    unfold complexity_step
    simp [h]
  all_goals
    unfold analyze_complexity_fast
    rw [complexity_foldl_spec]
    simp

/-- A concrete 121-character line used by the complexity witness. -/
def long_sample_line : String := String.mk (List.replicate 121 'a')

/-- Witness for `complexity_fast_counters`: a whitespace-only line leaves
the counters untouched, and a 121-character line counts once as a long
line. -/
theorem complexity_fast_counters_witness :
    pyStrip ("   ") = ("") ∧
    complexity_step ⟨3, 4, 5⟩ ("   ") = ⟨3, 4, 5⟩ ∧
    (analyze_complexity_fast [("   "), long_sample_line]).long_lines = 1 :=
  ⟨by decide, (complexity_fast_counters []).1 ⟨3, 4, 5⟩ ("   ") (by decide),
   by rw [(complexity_fast_counters [("   "), long_sample_line]).2.1]; decide⟩

/-- The `FileResult` appended for one file (read off `process_file_result`
together with the analysis triple). -/
def file_result_of (e : FileEntry) : FileResult :=
  let t := analyze_file_patterns e
  ⟨e.parts, detect_language (path_suffix e.fileName), t.1, t.2.1,
   (if 0 < t.1 then ((t.2.1 : ℚ) / (t.1 : ℚ)) * 100 else 0), t.2.2.length⟩

/-- One sequential step: `total_files` is untouched, `analyzed_files`
grows by one, and exactly one `FileResult` is appended. -/
theorem analyze_step_effect (r : Results) (e : FileEntry) :
    (analyze_step r e).summary.total_files = r.summary.total_files ∧
    (analyze_step r e).summary.analyzed_files =
      r.summary.analyzed_files + 1 ∧
    (analyze_step r e).file_analysis =
      r.file_analysis ++ [file_result_of e] := by
  refine ⟨rfl, rfl, rfl⟩

/-- Effect of a full sequential pass on the counters and the per-file
list. -/
theorem analyze_sequential_effect (files : List FileEntry) (r : Results) :
    (analyze_sequential r files).summary.total_files =
      r.summary.total_files ∧
    (analyze_sequential r files).summary.analyzed_files =
      r.summary.analyzed_files + files.length ∧
    (analyze_sequential r files).file_analysis =
      r.file_analysis ++ files.map file_result_of := by
  induction files generalizing r with
  | nil => simp [analyze_sequential]
  | cons e rest ih =>
    have hstep := analyze_step_effect r e
    have hrest := ih (analyze_step r e)
    unfold analyze_sequential at *
    rw [List.foldl_cons]
    refine ⟨?_, ?_, ?_⟩
    · rw [hrest.1, hstep.1]
    · rw [hrest.2.1, hstep.2.1]
      simp [Nat.add_assoc, Nat.add_comm 1 rest.length]
    · rw [hrest.2.2, hstep.2.2]
      simp

/-- Finalization only rewrites the global percentage and the top-N list. -/
theorem finalize_results_effect (r : Results) :
    (finalize_results r).summary.total_files = r.summary.total_files ∧
    (finalize_results r).summary.analyzed_files =
      r.summary.analyzed_files ∧
    (finalize_results r).summary.total_lines = r.summary.total_lines ∧
    (finalize_results r).summary.ai_pattern_lines =
      r.summary.ai_pattern_lines ∧
    (finalize_results r).file_analysis = r.file_analysis ∧
    (finalize_results r).pattern_details = r.pattern_details ∧
    (finalize_results r).top_ai_files =
      (sort_by_ai_percentage r.file_analysis).take 20 := by
  unfold finalize_results
  dsimp only
  split <;> exact ⟨rfl, rfl, rfl, rfl, rfl, rfl, rfl⟩

/-- The scan body (strategy dispatch included) as a sequential pass. -/
theorem analyze_repository_as_sequential (entries : List FileEntry)
    (up : Bool) :
    analyze_repository entries up =
      (if (files_to_analyze entries).isEmpty then
        (⟨⟨entries.length, 0, 0, 0, 0⟩, [], [], [], []⟩ : Results)
      else
        finalize_results
          (analyze_sequential ⟨⟨entries.length, 0, 0, 0, 0⟩, [], [], [], []⟩
            (files_to_analyze entries))) := by
  unfold analyze_repository
  dsimp only
  split
  · rfl
  · split
    · rw [parallel_eq_sequential]
    · rfl

/-- Every entry of the scan's per-file list is the result of one
candidate file. -/
theorem file_analysis_members (entries : List FileEntry) (up : Bool) :
    ∀ fr ∈ (analyze_repository entries up).file_analysis,
      ∃ c ∈ files_to_analyze entries, fr = file_result_of c := by
  intro fr hfr
  rw [analyze_repository_as_sequential] at hfr
  by_cases hempty : (files_to_analyze entries).isEmpty
  · rw [if_pos hempty] at hfr
    simp at hfr
  · rw [if_neg hempty, (finalize_results_effect _).2.2.2.2.1,
      (analyze_sequential_effect _ _).2.2] at hfr
    simp only [List.nil_append, List.mem_map] at hfr
    obtain ⟨c, hc, hcr⟩ := hfr
    exact ⟨c, hc, hcr.symm⟩

/-- The scan's `analyzed_files` counter is the number of candidates, and
its `total_files` counter is the number of all entries seen. -/
theorem analyzed_files_count (entries : List FileEntry) (up : Bool) :
    (analyze_repository entries up).summary.analyzed_files =
      (files_to_analyze entries).length ∧
    (analyze_repository entries up).summary.total_files = entries.length := by
  rw [analyze_repository_as_sequential]
  by_cases hempty : (files_to_analyze entries).isEmpty
  · rw [if_pos hempty]
    simp [List.isEmpty_iff.mp hempty]
  · rw [if_neg hempty]
    refine ⟨?_, ?_⟩
    · rw [(finalize_results_effect _).2.1, (analyze_sequential_effect _ _).2.1]
      simp
    · rw [(finalize_results_effect _).1, (analyze_sequential_effect _ _).1]

/-- C6: a file one of whose path components is an excluded directory name
is never a candidate, never yields a per-file result (its path differs
from every recorded one), and never counts toward `analyzed_files`, which
equals the number of candidate files; descendants of an excluded
directory carry the same component and are covered alike. -/
theorem excluded_dir_never_analyzed (entries : List FileEntry) (up : Bool)
    (e : FileEntry) (d : String) (hd : d ∈ skip_dirs) (hp : d ∈ e.parts) :
    e ∉ files_to_analyze entries ∧
    (∀ fr ∈ (analyze_repository entries up).file_analysis,
      fr.path ≠ e.parts) ∧
    (analyze_repository entries up).summary.analyzed_files =
      (files_to_analyze entries).length := by
  have hcand : is_candidate e = false := by
    unfold is_candidate
    have : (decide (∃ x ∈ skip_dirs, x ∈ e.parts)) = true :=
      decide_eq_true ⟨d, hd, hp⟩
    rw [this]
    simp
  refine ⟨?_, ?_, (analyzed_files_count entries up).1⟩
  · intro hmem
    rw [files_to_analyze, List.mem_filter] at hmem
    rw [hcand] at hmem
    exact Bool.false_ne_true hmem.2
  · intro fr hfr
    obtain ⟨c, hc, hcr⟩ := file_analysis_members entries up fr hfr
    have hcands : is_candidate c = true :=
      (List.mem_filter.mp hc).2
    intro hpath
    have hcparts : c.parts = e.parts := by
      rw [hcr] at hpath
      exact hpath
    unfold is_candidate at hcands
    rw [Bool.and_eq_true, Bool.not_eq_true', decide_eq_false_iff_not] at hcands
    exact hcands.2 ⟨d, hd, hcparts ▸ hp⟩

/-- Witness for `excluded_dir_never_analyzed`: a python file under `.git`
is skipped. -/
def git_config_py : FileEntry :=
  ⟨[(".git"), ("config.py")], 10, some ("a\nb\nc\nd\ne\nf"), [], none⟩

/-- Witness applying `excluded_dir_never_analyzed` to a concrete scan of
one file lying under a `.git` directory. -/
theorem excluded_dir_never_analyzed_witness :
    ((".git") ∈ skip_dirs ∧ (".git") ∈ git_config_py.parts) ∧
    (git_config_py ∉ files_to_analyze [git_config_py] ∧
      (∀ fr ∈ (analyze_repository [git_config_py] true).file_analysis,
        fr.path ≠ git_config_py.parts) ∧
      (analyze_repository [git_config_py] true).summary.analyzed_files =
        (files_to_analyze [git_config_py]).length) :=
  ⟨⟨by decide, by decide⟩,
   excluded_dir_never_analyzed [git_config_py] true git_config_py (".git")
     (by decide) (by decide)⟩

/-- A candidate file whose read fails (`content = none` models the caught
`OSError`). -/
def bad_py : FileEntry := ⟨[("bad.py")], 10, none, [], none⟩

/-- Counterexample to C4: scanning a tree whose single candidate file
cannot be read yields `analyzed_files = 1`, not the `0` the claim's
exclusion from `analyzedFileCount` would demand (the error produces a
zero-contribution result, not an exclusion from the count). -/
theorem unreadable_counted_counterexample :
    (analyze_repository [bad_py] true).summary.analyzed_files = 1 ∧
    ¬((analyze_repository [bad_py] true).summary.analyzed_files = 0) ∧
    (analyze_repository [bad_py] true).summary.total_files = 1 ∧
    (analyze_repository [bad_py] true).summary.total_lines = 0 := by
  refine ⟨?_, ?_, ?_, ?_⟩ <;> decide

/-- C4 as amended: an unreadable file is still counted in
`total_files` and also in `analyzed_files` (the analyzer returns the
zero result `(0, 0, {})` and accumulation is unconditional), while
contributing nothing to `total_lines`, `ai_pattern_lines` or the pattern
totals, and the scan continues with the remaining files. -/
theorem unreadable_file_isolation (r : Results) (rest : List FileEntry)
    (entries : List FileEntry) (up : Bool) (e : FileEntry)
    (hc : e.content = none) :
    analyze_file_patterns e = (0, 0, []) ∧
    (analyze_step r e).summary.analyzed_files =
      r.summary.analyzed_files + 1 ∧
    (analyze_step r e).summary.total_lines = r.summary.total_lines ∧
    (analyze_step r e).summary.ai_pattern_lines =
      r.summary.ai_pattern_lines ∧
    (analyze_step r e).pattern_details = r.pattern_details ∧
    analyze_sequential r (e :: rest) =
      analyze_sequential (analyze_step r e) rest ∧
    (analyze_repository entries up).summary.total_files = entries.length := by
  have hanalyze : analyze_file_patterns e = (0, 0, []) := by
    unfold analyze_file_patterns
    rw [hc]
    split <;> rfl
  have hstep : analyze_step r e =
      process_file_result r e 0 0 [] := by
    unfold analyze_step
    rw [hanalyze]
  refine ⟨hanalyze, ?_, ?_, ?_, ?_, rfl, (analyzed_files_count entries up).2⟩
  · rw [hstep]
    rfl
  · rw [hstep]
    simp [process_file_result]
  · rw [hstep]
    simp [process_file_result]
  · rw [hstep]
    rfl

/-- Witness applying `unreadable_file_isolation` to the empty accumulator
and the one-file tree of `bad_py`. -/
theorem unreadable_file_isolation_witness :
    bad_py.content = none ∧
    analyze_file_patterns bad_py = (0, 0, []) ∧
    (analyze_repository [bad_py] true).summary.total_files = 1 :=
  ⟨rfl,
   (unreadable_file_isolation ⟨⟨1, 0, 0, 0, 0⟩, [], [], [], []⟩ [] [bad_py]
     true bad_py rfl).1,
   by
    have h := (unreadable_file_isolation ⟨⟨1, 0, 0, 0, 0⟩, [], [], [], []⟩ []
      [bad_py] true bad_py rfl).2.2.2.2.2.2
    simpa using h⟩

/-- A candidate file of three lines, below the five-line noise floor. -/
def small_py : FileEntry := ⟨[("small.py")], 20, some ("a\nb\nc"), [], none⟩

/-- Counterexample to C7: a three-line file is claimed to have "no effect
on any total", yet after scanning it alone the aggregate `total_lines` is
3, not 0 (below-minimum files report their line count). -/
theorem below_min_lines_total_counterexample :
    (analyze_repository [small_py] true).summary.total_lines = 3 ∧
    ¬((analyze_repository [small_py] true).summary.total_lines = 0) ∧
    (analyze_repository [small_py] true).summary.analyzed_files = 1 := by
  refine ⟨?_, ?_, ?_⟩ <;> decide

/-- C7 as amended: empty (whitespace-only) and below-minimum files are
valid zero-pattern results, never errors: both report zero pattern lines
and an empty pattern dictionary, leave `ai_pattern_lines` and the pattern
totals unchanged, and increment `analyzed_files`; an empty file
contributes zero lines, while a below-minimum file adds its line count to
`total_lines`; the scan continues with the remaining files. -/
theorem degenerate_inputs_zero_patterns (r : Results) (rest : List FileEntry)
    (e : FileEntry) (code : String) (hc : e.content = some code)
    (hs : ¬(max_file_size < e.size)) :
    (pyStrip code = ("") →
      analyze_file_patterns e = (0, 0, []) ∧
      (analyze_step r e).summary.total_lines = r.summary.total_lines) ∧
    (pyStrip code ≠ ("") → (py_split_lines code).length < 5 →
      analyze_file_patterns e = ((py_split_lines code).length, 0, []) ∧
      (analyze_step r e).summary.total_lines =
        r.summary.total_lines + (py_split_lines code).length) ∧
    ((analyze_file_patterns e).2.1 = 0 → (analyze_file_patterns e).2.2 = [] →
      (analyze_step r e).summary.ai_pattern_lines =
        r.summary.ai_pattern_lines ∧
      (analyze_step r e).pattern_details = r.pattern_details ∧
      (analyze_step r e).summary.analyzed_files =
        r.summary.analyzed_files + 1) ∧
    analyze_sequential r (e :: rest) =
      analyze_sequential (analyze_step r e) rest := by
  refine ⟨?_, ?_, ?_, rfl⟩
  · intro hblank
    have hanalyze : analyze_file_patterns e = (0, 0, []) := by
      unfold analyze_file_patterns
      rw [if_neg hs, hc]
      dsimp only
      rw [if_pos hblank]
    constructor
    · exact hanalyze
    · unfold analyze_step
      rw [hanalyze]
      simp [process_file_result]
  · intro hblank hshort
    have hanalyze : analyze_file_patterns e =
        ((py_split_lines code).length, 0, []) := by
      unfold analyze_file_patterns
      rw [if_neg hs, hc]
      dsimp only
      rw [if_neg hblank, if_pos hshort]
    constructor
    · exact hanalyze
    · unfold analyze_step
      rw [hanalyze]
      rfl
  · intro hai hpat
    unfold analyze_step
    refine ⟨?_, ?_, rfl⟩
    · show r.summary.ai_pattern_lines + (analyze_file_patterns e).2.1 =
        r.summary.ai_pattern_lines
      rw [hai, Nat.add_zero]
    · show ((analyze_file_patterns e).2.2).foldl
          (fun d p => dict_add d p.1 p.2) r.pattern_details =
        r.pattern_details
      rw [hpat, List.foldl_nil]

/-- Witness applying `degenerate_inputs_zero_patterns` to the three-line
file `small_py`. -/
theorem degenerate_inputs_zero_patterns_witness :
    (small_py.content = some ("a\nb\nc") ∧
      ¬(max_file_size < small_py.size) ∧
      pyStrip ("a\nb\nc") ≠ ("") ∧ (py_split_lines ("a\nb\nc")).length < 5) ∧
    analyze_file_patterns small_py = (3, 0, []) :=
  ⟨⟨rfl, by decide, by decide, by decide⟩,
   by
    have h := ((degenerate_inputs_zero_patterns
      ⟨⟨1, 0, 0, 0, 0⟩, [], [], [], []⟩ [] small_py ("a\nb\nc") rfl
      (by decide)).2.1 (by decide) (by decide)).1
    exact h.trans (by decide)⟩

instance : IsTotal FileResult pct_ge :=
  ⟨fun a b => le_total b.ai_percentage a.ai_percentage⟩

instance : IsTrans FileResult pct_ge :=
  ⟨fun _ _ _ hab hbc => le_trans hbc hab⟩

/-- Inserting an element moves it past strictly larger keys only, so the
subsequence of any fixed key value gains the element in front exactly
when the element carries that value. -/
theorem filter_orderedInsert (c : ℚ) (x : FileResult) (l : List FileResult) :
    (List.orderedInsert pct_ge x l).filter
        (fun fr => decide (fr.ai_percentage = c)) =
      if x.ai_percentage = c then
        x :: l.filter (fun fr => decide (fr.ai_percentage = c))
      else l.filter (fun fr => decide (fr.ai_percentage = c)) := by
  induction l with
  | nil =>
    simp only [List.orderedInsert, List.filter]
    split_ifs with h <;> simp [h]
  | cons y ys ih =>
    by_cases hxy : pct_ge x y
    · rw [List.orderedInsert, if_pos hxy]
      by_cases hx : x.ai_percentage = c
      · simp [List.filter, hx]
      · simp [List.filter, hx]
    · rw [List.orderedInsert, if_neg hxy]
      have hlt : x.ai_percentage < y.ai_percentage := by
        unfold pct_ge at hxy
        exact lt_of_not_le hxy
      by_cases hx : x.ai_percentage = c
      · have hy : ¬(y.ai_percentage = c) := by
          intro hy
          rw [hx, hy] at hlt
          exact lt_irrefl c hlt
        simp only [List.filter_cons, ih, hx, if_pos, decide_eq_true_eq]
        simp [hy, hx]
      · simp only [List.filter_cons, ih, hx, decide_eq_true_eq]
        by_cases hy : y.ai_percentage = c <;> simp [hy, hx]

/-- Stability of the stable descending sort: for every key value, the
elements carrying that value come out in their input order. -/
theorem filter_sort_by_ai_percentage (c : ℚ) (l : List FileResult) :
    (sort_by_ai_percentage l).filter
        (fun fr => decide (fr.ai_percentage = c)) =
      l.filter (fun fr => decide (fr.ai_percentage = c)) := by
  induction l with
  | nil => rfl
  | cons x xs ih =>
    show (List.orderedInsert pct_ge x (sort_by_ai_percentage xs)).filter _ = _
    rw [filter_orderedInsert, ih]
    by_cases hx : x.ai_percentage = c <;> simp [List.filter_cons, hx]

/-- A candidate file whose content is pure whitespace: analyzed with zero
lines. -/
def empty_py : FileEntry := ⟨[("empty.py")], 0, some (""), [], none⟩

/-- Counterexample to C5: scanning one empty candidate file records a
`FileResult` with zero total lines, and that zero-line file occupies the
top-N ranking (the claim says zero-line files are excluded from it). -/
theorem zero_line_file_ranked_counterexample :
    ((analyze_repository [empty_py] true).top_ai_files.map
      (fun fr => fr.total_lines)) = [0] ∧
    ¬((analyze_repository [empty_py] true).top_ai_files = []) ∧
    (analyze_repository [empty_py] true).file_analysis.length = 1 := by
  refine ⟨by decide, ?_, by decide⟩
  intro h
  have : ((analyze_repository [empty_py] true).top_ai_files.map
      (fun fr => fr.total_lines)) = [0] := by decide
  rw [h] at this
  exact List.cons_ne_nil 0 [] this.symm

/-- C5 as amended: `topFilesByDensity` is the first twenty entries of the
stable descending sort of all recorded `FileResult`s by `ai_percentage`
(the per-file ratio times 100, defined as 0 for zero-line files, which
are ranked, not excluded): the selection is sorted non-increasingly,
draws only from the recorded results, and breaks percentage ties by
original discovery order. -/
theorem top_files_ordering (entries : List FileEntry) (up : Bool) :
    (analyze_repository entries up).top_ai_files =
      (sort_by_ai_percentage
        (analyze_repository entries up).file_analysis).take 20 ∧
    List.Pairwise pct_ge (analyze_repository entries up).top_ai_files ∧
    (∀ fr ∈ (analyze_repository entries up).top_ai_files,
      fr ∈ (analyze_repository entries up).file_analysis) ∧
    (∀ c : ℚ,
      (sort_by_ai_percentage
          (analyze_repository entries up).file_analysis).filter
        (fun fr => decide (fr.ai_percentage = c)) =
      (analyze_repository entries up).file_analysis.filter
        (fun fr => decide (fr.ai_percentage = c))) ∧
    (∀ fr ∈ (analyze_repository entries up).file_analysis,
      fr.total_lines = 0 → fr.ai_percentage = 0) := by
  have htop : (analyze_repository entries up).top_ai_files =
      (sort_by_ai_percentage
        (analyze_repository entries up).file_analysis).take 20 := by
    rw [analyze_repository_as_sequential]
    by_cases hempty : (files_to_analyze entries).isEmpty
    · rw [if_pos hempty]
      rfl
    · rw [if_neg hempty]
      rw [(finalize_results_effect _).2.2.2.2.2.2,
        (finalize_results_effect _).2.2.2.2.1]
  refine ⟨htop, ?_, ?_, fun c => filter_sort_by_ai_percentage c _, ?_⟩
  · rw [htop]
    exact List.Pairwise.sublist (List.take_sublist 20 _)
      (List.sorted_insertionSort pct_ge _)
  · intro fr hfr
    rw [htop] at hfr
    have hsort : fr ∈ sort_by_ai_percentage
        (analyze_repository entries up).file_analysis :=
      (List.take_sublist 20 _).subset hfr
    exact (List.perm_insertionSort pct_ge _).subset hsort
  · intro fr hfr hzero
    obtain ⟨c, _, hcr⟩ := file_analysis_members entries up fr hfr
    rw [hcr] at hzero ⊢
    unfold file_result_of at hzero ⊢
    dsimp only at hzero ⊢
    rw [if_neg]
    rw [hzero]
    exact lt_irrefl 0

/-- Witness applying `top_files_ordering` to the one-file scan of
`empty_py`: its zero-line result is a member of the ranking. -/
theorem top_files_ordering_witness :
    (analyze_repository [empty_py] true).top_ai_files =
      (sort_by_ai_percentage
        (analyze_repository [empty_py] true).file_analysis).take 20 ∧
    List.Pairwise pct_ge (analyze_repository [empty_py] true).top_ai_files :=
  ⟨(top_files_ordering [empty_py] true).1,
   (top_files_ordering [empty_py] true).2.1⟩

end OrgAiStats
